import Mathlib

set_option maxHeartbeats 1000000
set_option maxRecDepth 8000

/-!
Verification of the VirtEditor device-client core against its specification.

The development shallowly embeds the Python sources:
  src/api/client.py          (DeviceApiClient: authenticate, detect_slots,
                              get_slot_data, get_focused_slot_data,
                              _extract_json_from_content, _fallback_get_data)
  src/api/worker.py          (SlotDetectionWorker.run)
  src/slot_data_fetcher.py   (SlotDataFetcher.fetch_all_data / stop)
  src/models/device_data.py  (DeviceData._extract_* normalizers)

External libraries (requests, json.loads, BeautifulSoup) are modelled as an
abstract environment `Env`; all logic belonging to the repository itself is
translated directly from the source.
-/

/-- JSON values as the client manipulates them: objects with string keys,
strings and integers.  `null` also stands for the "missing" value returned
by the defaulted lookup `Json.findD`.  (Arrays and booleans never occur in
the code paths the claims are about.) -/
inductive Json where
  | null : Json
  | str : String → Json
  | num : Int → Json
  | obj : List (String × Json) → Json

/-- First-match association lookup, the model of Python `dict.__getitem__`
(dict keys are unique, so first match is the match). -/
def jsonLookup : List (String × Json) → String → Option Json
  | [], _ => none
  | (k, v) :: rest, key => if k = key then some v else jsonLookup rest key

/-- `d[key]` when `d` is an object; `none` otherwise.  A Python membership
test `key in d` on a non-dict would raise `TypeError`; the claims only
exercise object-shaped values, where this model is exact. -/
def Json.find : Json → String → Option Json
  | .obj fields, key => jsonLookup fields key
  | _, _ => none

/-- Python `key in d` for a dict. -/
def Json.hasKey (j : Json) (k : String) : Bool := (Json.find j k).isSome

/-- Lookup defaulting to `null` for chained access `d[a][b]...` below a
membership check. -/
def Json.findD (j : Json) (k : String) : Json := (Json.find j k).getD Json.null

/-- `.keys()` of a dict (empty for non-dicts). -/
def Json.keys : Json → List String
  | .obj fields => fields.map Prod.fst
  | _ => []

/-- Python truthiness of a JSON value (`{}`/`""`/`0`/`None` are falsy). -/
def Json.truthy : Json → Bool
  | .null => false
  | .str s => !(s == "")
  | .num n => !(n == 0)
  | .obj fields => !fields.isEmpty

/-- `str.lower()` character-wise. -/
def lowerChars (cs : List Char) : List Char := cs.map Char.toLower

/-- Python substring test `needle in hay` on character lists. -/
def charsContain (hay needle : List Char) : Bool :=
  match hay with
  | [] => needle.isEmpty
  | c :: rest => needle.isPrefixOf (c :: rest) || charsContain rest needle

/-- Python `needle in hay` for strings. -/
def pyIn (needle hay : String) : Bool := charsContain hay.data needle.data

/-- Python `needle in hay.lower()`. -/
def pyInLower (needle hay : String) : Bool :=
  charsContain (lowerChars hay.data) needle.data

/-- Python `needle in hay.lower()[:1000]`. -/
def pyInLowerHead (needle hay : String) : Bool :=
  charsContain ((lowerChars hay.data).take 1000) needle.data

/-- Python `str.strip()` (both ends). -/
def stripChars (cs : List Char) : List Char :=
  ((cs.dropWhile Char.isWhitespace).reverse.dropWhile Char.isWhitespace).reverse

/-- An HTTP response as the client observes it: status code, final URL after
redirects, and the body text. -/
structure Response where
  status : Nat
  url : String
  text : String
  deriving DecidableEq

/-- One `<input>` element of the parsed login form (`type`, `name`, `value`
attributes; `none` models an absent attribute). -/
structure FormInput where
  type : Option String
  name : Option String
  value : Option String
  deriving DecidableEq

/-- The parsed login `<form>`: its `action` attribute and its inputs in
document order. -/
structure Form where
  action : Option String
  inputs : List FormInput
  deriving DecidableEq

/-- The external world: the HTTP session (`requests`), the JSON parser
(`json.loads`) and the HTML parser (`BeautifulSoup(...).find('form')`).
`get`/`post` are indexed by the client's running request counter so a URL
may answer differently across retries; a `none` response models a raised
`requests` exception (timeout, connection error). -/
structure Env where
  get : Nat → String → Nat → Option Response
  post : Nat → String → List (String × String) → Option Response
  parse : String → Option Json
  findForm : String → Option Form

/-- The mutable state of one `DeviceApiClient`: connection parameters, the
`authenticated` flag, plus instrumentation counters (requests issued,
`authenticate()` bodies entered past the already-authenticated guard, login
form POSTs performed). -/
structure ClientState where
  baseIp : String
  username : String
  password : String
  authenticated : Bool
  reqCount : Nat
  authAttempts : Nat
  loginPosts : Nat

/-- `self.session.get(url, timeout=...)`. -/
def doGet (env : Env) (st : ClientState) (url : String) (timeoutS : Nat) :
    Option Response × ClientState :=
  (env.get st.reqCount url timeoutS, { st with reqCount := st.reqCount + 1 })

/-- `self.session.post(url, data=..., timeout=10, allow_redirects=True)`. -/
def doPost (env : Env) (st : ClientState) (url : String)
    (data : List (String × String)) : Option Response × ClientState :=
  (env.post st.reqCount url data, { st with reqCount := st.reqCount + 1 })

/-- client.py line 36: the known protected URL used to provoke the login
page. -/
def loginUrl (st : ClientState) : String :=
  "http://" ++ st.baseIp ++ "/slot/1/api/data.html"

/-- client.py line 45: login-page check used inside `authenticate`
(`"login" in response.url.lower() or "login" in response.text.lower()`). -/
def authLoginCheck (r : Response) : Bool :=
  pyInLower "login" r.url || pyInLower "login" r.text

/-- client.py lines 138-139 / 281-282 / 374-375: session-expiry check used
before data requests (`"login" in response.url.lower() or (status == 200
and "login" in response.text.lower()[:1000])`). -/
def loginRedirect (r : Response) : Bool :=
  pyInLower "login" r.url || (r.status == 200 && pyInLowerHead "login" r.text)

/-- client.py lines 95-96: body phrases indicating a failed login. -/
def failedPatterns : List String :=
  ["login failed", "invalid username", "invalid password",
   "authentication failed", "incorrect credentials"]

/-- Python `dict[k] = v`: replace in place if present, else append. -/
def pySetKey (d : List (String × String)) (k v : String) :
    List (String × String) :=
  if d.any (fun kv => kv.1 == k) then
    d.map (fun kv => if kv.1 == k then (k, v) else kv)
  else d ++ [(k, v)]

/-- client.py lines 80-84: copy every hidden input with a `name` attribute
into the form data (`value` defaulting to the empty string). -/
def apply_hidden_fields (form : Form) (d : List (String × String)) :
    List (String × String) :=
  (form.inputs.filter (fun i => i.type == some "hidden" && i.name.isSome)).foldl
    (fun d i => pySetKey d (i.name.getD "") (i.value.getD "")) d

/-- client.py lines 64-84: build the login form data.  Start from the
literal `us`/`pw` fields; if a named text input exists REPLACE the whole
dict by `{name: username}`; if a named password input exists add its field;
then copy the hidden fields.  (`if field and field.get('name')` requires the
name to be present and non-empty.) -/
def build_form_data (username password : String) (form : Form) :
    List (String × String) :=
  let base := [("us", username), ("pw", password)]
  let usernameField := form.inputs.find? (fun i => i.name.isSome && i.type == some "text")
  let passwordField := form.inputs.find? (fun i => i.name.isSome && i.type == some "password")
  let d1 := match usernameField with
    | some f =>
      match f.name with
      | some n => if n == "" then base else [(n, username)]
      | none => base
    | none => base
  let d2 := match passwordField with
    | some f =>
      match f.name with
      | some n => if n == "" then d1 else pySetKey d1 n password
      | none => d1
    | none => d1
  apply_hidden_fields form d2

/-- Modelled from the spec (§4.1 and claim C7): the claimed form-field
construction — first text-typed input's name for the username and first
password-typed input's name for the password, each independently falling
back to the literal `us`/`pw`, plus hidden fields verbatim. -/
def build_form_data_spec (username password : String) (form : Form) :
    List (String × String) :=
  let uname := ((form.inputs.find? (fun i => i.name.isSome && i.type == some "text")).bind
    (fun f => f.name)).getD "us"
  let pname := ((form.inputs.find? (fun i => i.name.isSome && i.type == some "password")).bind
    (fun f => f.name)).getD "pw"
  apply_hidden_fields form (pySetKey (pySetKey [] uname username) pname password)

/-- client.py lines 34-119, the body of `authenticate` past the
already-authenticated guard: GET the protected URL; if it is not a login
page assume authenticated; otherwise parse the form, build the field dict,
POST it and scan the reply for failure phrases.  A `none` response models
the function-level `except` returning `False`. -/
def authenticate_body (env : Env) (st0 : ClientState) : Bool × ClientState :=
  let stA := { st0 with authAttempts := st0.authAttempts + 1 }
  let stG := { stA with reqCount := stA.reqCount + 1 }
  match env.get stA.reqCount (loginUrl stA) 10 with
  | none => (false, stG)
  | some response =>
    if response.status ≠ 200 then (false, stG)
    else if authLoginCheck response = true then
      match env.findForm response.text with
      | none => (false, stG)
      | some loginForm =>
        let rawAction := loginForm.action.getD "/api/login"
        let formAction :=
          if "http".data.isPrefixOf rawAction.data then rawAction
          else "http://" ++ stG.baseIp ++
            (if "/".data.isPrefixOf rawAction.data then rawAction else "/" ++ rawAction)
        let formData := build_form_data stG.username stG.password loginForm
        let stP := { stG with loginPosts := stG.loginPosts + 1,
                              reqCount := stG.reqCount + 1 }
        match env.post stG.reqCount formAction formData with
        | none => (false, stP)
        | some loginResponse =>
          if loginResponse.status == 200 then
            if failedPatterns.any (fun pat => pyInLower pat loginResponse.text) then
              (false, stP)
            else (true, { stP with authenticated := true })
          else (false, stP)
    else (true, { stG with authenticated := true })

/-- client.py lines 29-119: `authenticate` — a no-op returning `True` when
already authenticated, otherwise the login body. -/
def authenticate (env : Env) (st : ClientState) : Bool × ClientState :=
  if st.authenticated = true then (true, st) else authenticate_body env st

/-- client.py lines 336-359: `_extract_json_from_content` — strip a
`Pretty-print` banner, try a direct parse, then parse the substring from
the first open brace to the last close brace. -/
def extract_json_from_content (env : Env) (content : String) : Option Json :=
  let cs := content.data
  let cs :=
    if "Pretty-print".data.isPrefixOf (stripChars cs) && cs.contains '{' then
      cs.dropWhile (fun c => c != '{')
    else cs
  match env.parse (String.mk cs) with
  | some j => some j
  | none =>
    if cs.contains '{' && cs.contains '}' then
      let fromBrace := cs.dropWhile (fun c => c != '{')
      let upToLast := (fromBrace.reverse.dropWhile (fun c => c != '}')).reverse
      if upToLast.isEmpty then none else env.parse (String.mk upToLast)
    else none

/-- client.py lines 256-267: per-section URL
`http://ip/slot/n/api/data/section.json`. -/
def sectionUrl (st : ClientState) (slot : Nat) (name : String) : String :=
  "http://" ++ st.baseIp ++ "/slot/" ++ toString slot ++ "/api/data/" ++ name ++ ".json"

/-- client.py line 270: the section order of `{**sections,
**optional_sections}` — required dev/store/alarms then optional
shelf/elements/network. -/
def sectionNames : List String :=
  ["dev", "store", "alarms", "shelf", "elements", "network"]

/-- The required-then-optional split matters only for log levels, but the
optional set is recorded for completeness (client.py lines 263-267). -/
def optionalSectionNames : List String := ["shelf", "elements", "network"]

/-- client.py lines 293-308 (also the tail of the retried request): on 200
parse the body, falling back to tolerant JSON extraction; otherwise skip the
section. -/
def fetch_section_finish (env : Env) (acc : List (String × Json)) (name : String)
    (r : Response) : List (String × Json) :=
  if r.status == 200 then
    match env.parse r.text with
    | some j => acc ++ [(name, j)]
    | none =>
      match extract_json_from_content env r.text with
      | some j => acc ++ [(name, j)]
      | none => acc
  else acc

/-- client.py lines 274-321, one iteration of the section loop of
`get_slot_data`: GET the section; on a login-page indication clear the flag,
re-authenticate (a failure skips the section via `continue`) and retry the
same request once; then parse.  `none` responses model caught
`RequestException`s. -/
def fetch_section (env : Env) (slot : Nat) (timeoutS : Nat)
    (p : List (String × Json) × ClientState) (name : String) :
    List (String × Json) × ClientState :=
  let st := p.2
  let st1 := { st with reqCount := st.reqCount + 1 }
  match env.get st.reqCount (sectionUrl st slot name) timeoutS with
  | none => (p.1, st1)
  | some r =>
    if loginRedirect r = true then
      let a := authenticate env { st1 with authenticated := false }
      if a.1 = true then
        let st3 := { a.2 with reqCount := a.2.reqCount + 1 }
        match env.get a.2.reqCount (sectionUrl a.2 slot name) timeoutS with
        | none => (p.1, st3)
        | some r2 => (fetch_section_finish env p.1 name r2, st3)
      else (p.1, a.2)
    else (fetch_section_finish env p.1 name r, st1)

/-- client.py line 368: the combined fallback URL
`http://ip/slot/n/api/data.json`. -/
def fallbackUrl (st : ClientState) (slot : Nat) : String :=
  "http://" ++ st.baseIp ++ "/slot/" ++ toString slot ++ "/api/data.json"

/-- client.py lines 386-400: the parse tail of `_fallback_get_data` — every
failure path returns the empty dict `{}` (`Json.obj []`), never Python
`None`. -/
def fallback_finish (env : Env) (st : ClientState) (r : Response) :
    Option Json × ClientState :=
  if r.status == 200 then
    match env.parse r.text with
    | some j => (some j, st)
    | none =>
      match extract_json_from_content env r.text with
      | some j => (some j, st)
      | none => (some (Json.obj []), st)
  else (some (Json.obj []), st)

/-- client.py lines 365-404: `_fallback_get_data` — single combined request
with the same login-redirect re-auth-and-retry-once policy; all failures
degrade to `{}`. -/
def fallback_get_data (env : Env) (slot : Nat) (st : ClientState) :
    Option Json × ClientState :=
  let st1 := { st with reqCount := st.reqCount + 1 }
  match env.get st.reqCount (fallbackUrl st slot) 10 with
  | none => (some (Json.obj []), st1)
  | some r =>
    if loginRedirect r = true then
      let a := authenticate env { st1 with authenticated := false }
      if a.1 = true then
        let st3 := { a.2 with reqCount := a.2.reqCount + 1 }
        match env.get a.2.reqCount (fallbackUrl a.2 slot) 10 with
        | none => (some (Json.obj []), st3)
        | some r2 => fallback_finish env st3 r2
      else (some (Json.obj []), a.2)
    else fallback_finish env st1 r

/-- client.py lines 245-331: `get_slot_data` — `None` on up-front
authentication failure, otherwise fetch the six sections (timeout 10s each)
and fall back to the combined endpoint when no section succeeded. -/
def get_slot_data (env : Env) (slot : Nat) (st : ClientState) :
    Option Json × ClientState :=
  let a := authenticate env st
  if a.1 = true then
    let r := sectionNames.foldl (fetch_section env slot 10) ([], a.2)
    if r.1.isEmpty then fallback_get_data env slot r.2
    else (some (Json.obj [("data", Json.obj r.1)]), r.2)
  else (none, a.2)

/-- client.py lines 214-217: the two focused sections. -/
def focusedSections : List String := ["dev", "alarms"]

/-- client.py lines 221-236, one iteration of the focused loop: GET with the
shorter 5s timeout, parse on 200, skip otherwise.  Unlike `fetch_section`
there is no login-redirect check, no re-authentication, no retry and no
tolerant JSON extraction. -/
def focused_section (env : Env) (slot : Nat)
    (p : List (String × Json) × ClientState) (name : String) :
    List (String × Json) × ClientState :=
  let st := p.2
  let st1 := { st with reqCount := st.reqCount + 1 }
  match env.get st.reqCount (sectionUrl st slot name) 5 with
  | none => (p.1, st1)
  | some r =>
    if r.status == 200 then
      match env.parse r.text with
      | some j => (p.1 ++ [(name, j)], st1)
      | none => (p.1, st1)
    else (p.1, st1)

/-- client.py lines 204-243: `get_focused_slot_data` — `None` on up-front
authentication failure or when both sections fail, otherwise the combined
payload of the sections that parsed. -/
def get_focused_slot_data (env : Env) (slot : Nat) (st : ClientState) :
    Option Json × ClientState :=
  let a := authenticate env st
  if a.1 = true then
    let r := focusedSections.foldl (focused_section env slot) ([], a.2)
    if r.1.isEmpty then (none, r.2)
    else (some (Json.obj [("data", Json.obj r.1)]), r.2)
  else (none, a.2)

/-- Modelled from the spec (§4.2 `fetchFocused` and claim C3): the focused
fetch as the claim describes it — behaviourally identical to the full
section fetch (including the login-redirect re-auth-and-retry-once policy)
but restricted to the sections dev and alarms with the shorter 5s timeout. -/
def get_focused_slot_data_spec (env : Env) (slot : Nat) (st : ClientState) :
    Option Json × ClientState :=
  let a := authenticate env st
  if a.1 = true then
    let r := focusedSections.foldl (fetch_section env slot 5) ([], a.2)
    if r.1.isEmpty then (none, r.2)
    else (some (Json.obj [("data", Json.obj r.1)]), r.2)
  else (none, a.2)

/-- client.py line 132: the aggregate slot-list URL. -/
def aggUrl (st : ClientState) : String :=
  "http://" ++ st.baseIp ++ "/api/data/shelf/slots/detected_coll"

/-- Ascending sort of detected slot numbers (Python `sorted`). -/
def sortNat (l : List Nat) : List Nat := List.insertionSort (· ≤ ·) l

/-- client.py lines 157-163 / 179-183: check the aggregate JSON shape
`data.shelf.slots.detected_coll` and read its keys as slot numbers. -/
def slotsFromShelfData (data : Json) : Option (List Nat) :=
  if data.hasKey "data" && (data.findD "data").hasKey "shelf"
      && ((data.findD "data").findD "shelf").hasKey "slots"
      && (((data.findD "data").findD "shelf").findD "slots").hasKey "detected_coll" then
    some (sortNat (((((data.findD "data").findD "shelf").findD "slots").findD
      "detected_coll").keys.filterMap String.toNat?))
  else none

/-- client.py lines 150-196: the tail of `detect_slots` after the (possibly
retried) aggregate response: on 200 parse (the direct branch also requires
`data` truthy), else try tolerant extraction; every shape mismatch or parse
failure defaults to `[1]`, as does a non-200 status. -/
def detect_slots_finish (env : Env) (st : ClientState) (response : Response) :
    List Nat × ClientState :=
  if response.status == 200 then
    match env.parse response.text with
    | some data =>
      if data.truthy then
        match slotsFromShelfData data with
        | some slots => (slots, st)
        | none => ([1], st)
      else ([1], st)
    | none =>
      match extract_json_from_content env response.text with
      | some jc =>
        match slotsFromShelfData jc with
        | some slots => (slots, st)
        | none => ([1], st)
      | none => ([1], st)
  else ([1], st)

/-- client.py lines 121-202: `detect_slots` — `[]` on authentication
failure (also on mid-call re-authentication failure), the sorted
`detected_coll` keys on success, `[1]` on every other failure.  The
`max_slots` parameter of the Python signature is never used by the body, and
no per-slot probing is performed. -/
def detect_slots (env : Env) (st : ClientState) : List Nat × ClientState :=
  let a0 := authenticate env st
  if a0.1 = true then
    let stB := a0.2
    let st1 := { stB with reqCount := stB.reqCount + 1 }
    match env.get stB.reqCount (aggUrl stB) 10 with
    | none => ([1], st1)
    | some response =>
      if loginRedirect response = true then
        let a := authenticate env { st1 with authenticated := false }
        if a.1 = true then
          let st3 := { a.2 with reqCount := a.2.reqCount + 1 }
          match env.get a.2.reqCount (aggUrl a.2) 10 with
          | none => ([1], st3)
          | some response2 => detect_slots_finish env st3 response2
        else ([], a.2)
      else detect_slots_finish env st1 response
  else ([], a0.2)

/-- Modelled from the spec (§4.3, claim C4): the lightweight per-slot probe
endpoint used by the claimed fallback. -/
def probeUrl (st : ClientState) (slot : Nat) : String := sectionUrl st slot "dev"

/-- Modelled from the spec (§4.3, claim C4): sequential per-slot probing of
slots `1..maxSlots`, HTTP 200 meaning "slot exists", anything else
(including exceptions) "absent"; zero hits default to `[1]`. -/
def probe_slots_spec (env : Env) (st : ClientState) (maxSlots : Nat) :
    List Nat × ClientState :=
  let r := (List.range maxSlots).foldl
    (fun (p : List Nat × ClientState) i =>
      let slot := i + 1
      match doGet env p.2 (probeUrl p.2 slot) 5 with
      | (some resp, st) => if resp.status == 200 then (p.1 ++ [slot], st) else (p.1, st)
      | (none, st) => (p.1, st)) ([], st)
  (if r.1.isEmpty then [1] else r.1, r.2)

/-- Modelled from the spec (§4.3, claim C4): `discoverSlots` as claimed —
aggregate query first, then per-slot probing whenever the aggregate request
fails outright or its JSON shape does not match. -/
def discover_slots_spec (env : Env) (st : ClientState) (maxSlots : Nat) :
    List Nat × ClientState :=
  match doGet env st (aggUrl st) 10 with
  | (none, st) => probe_slots_spec env st maxSlots
  | (some r, st) =>
    if r.status == 200 then
      match env.parse r.text with
      | some data =>
        match slotsFromShelfData data with
        | some slots => (slots, st)
        | none => probe_slots_spec env st maxSlots
      | none => probe_slots_spec env st maxSlots
    else probe_slots_spec env st maxSlots

/-- The attributes defined on `DeviceApiClient` in src/api/client.py
(methods and the constructor-set fields).  `detect_slots_direct` is not
among them. -/
def deviceApiClientAttrs : List String :=
  ["base_ip", "username", "password", "session", "authenticated",
   "authenticate", "detect_slots", "get_focused_slot_data", "get_slot_data",
   "extract_json_from_content", "fallback_get_data"]

/-- Signals a `SlotDetectionWorker` can emit (worker.py lines 88-89). -/
inductive DetectEmit where
  | slotsDetected : List Nat → DetectEmit
  | error : String → DetectEmit
  deriving DecidableEq

/-- The message emitted by worker.py line 118 when the attribute lookup
`self.client.detect_slots_direct` raises `AttributeError`. -/
def attributeErrorMsg : String := "Error detecting slots: AttributeError"

/-- worker.py lines 98-120: `SlotDetectionWorker.run`.  `r1` is the value of
`self.running` at the entry check, `r2` its value at the check that guards
the emission (either before `slotsDetected.emit` or inside the exception
handler).  With `use_direct_api` (the constructor default) the body calls
`self.client.detect_slots_direct`, an attribute `DeviceApiClient` does not
define, so `AttributeError` is raised and caught by `except Exception`. -/
def slot_detection_worker_run (env : Env) (useDirectApi r1 r2 : Bool)
    (st : ClientState) : List DetectEmit :=
  if r1 = false then []
  else if useDirectApi = true then
    if "detect_slots_direct" ∈ deviceApiClientAttrs then
      if r2 = false then [] else [DetectEmit.slotsDetected (detect_slots env st).1]
    else
      if r2 = false then [] else [DetectEmit.error attributeErrorMsg]
  else
    if r2 = false then [] else [DetectEmit.slotsDetected (detect_slots env st).1]

/-- Events observed by one run of `SlotDataFetcher.fetch_all_data`, in the
order the control thread handles them: `complete t` is one future handed
back by `as_completed` at wall-clock time `t` (milliseconds), `stop` is a
`stop()` call from another thread clearing `is_running`. -/
inductive FetchStep where
  | complete : Nat → FetchStep
  | stop : FetchStep
  deriving DecidableEq

/-- One `progress_updated.emit(completed, total)` record with its emission
time. -/
structure ProgEmit where
  completed : Nat
  total : Nat
  time : Nat
  deriving DecidableEq

/-- The observable state of one `fetch_all_data` run: the `is_running`
flag, the completed counter and `last_update_time`, the emitted signals,
and whether the `as_completed` loop was broken out of. -/
structure FetchRunState where
  isRunning : Bool
  completed : Nat
  lastUpdate : Nat
  progressEmits : List ProgEmit
  dataReadyEmitted : Bool
  errorEmits : Nat
  finishedEmits : Nat
  broken : Bool
  deriving DecidableEq

/-- slot_data_fetcher.py line 26: `self.update_interval = 0.2` seconds, in
milliseconds. -/
def updateInterval : Nat := 200

/-- slot_data_fetcher.py lines 85-104 (one loop iteration) and line 54 (the
`stop()` flag write).  A completed future is ignored once the loop has been
broken; otherwise the loop first checks `is_running` and breaks, else
increments `completed_slots` and emits progress when the rate limit allows
it or the final task completed. -/
def fetchLoopStep (total : Nat) (s : FetchRunState) (e : FetchStep) :
    FetchRunState :=
  match e with
  | .stop => { s with isRunning := false }
  | .complete t =>
    if s.broken then s
    else if s.isRunning = false then { s with broken := true }
    else
      let c := s.completed + 1
      if updateInterval ≤ t - s.lastUpdate ∨ c = total then
        { s with completed := c, lastUpdate := t,
                 progressEmits := s.progressEmits ++ [⟨c, total, t⟩] }
      else { s with completed := c }

/-- The state at entry of `fetch_all_data` after `start()` ran
(slot_data_fetcher.py lines 36-39): running, counters reset,
`last_update_time` set to the start time `t0`. -/
def initFetchState (t0 : Nat) : FetchRunState :=
  { isRunning := true, completed := 0, lastUpdate := t0, progressEmits := [],
    dataReadyEmitted := false, errorEmits := 0, finishedEmits := 0,
    broken := false }

/-- slot_data_fetcher.py lines 70-121: `fetch_all_data`.  Pool size is
`min(8, len(slots))` (line 25); `ThreadPoolExecutor(max_workers=0)` raises
`ValueError`, caught at line 111 emitting one `error_occurred`, and the
`finally` block always emits `finished`.  Otherwise the loop processes the
event trace `steps`, and the final aggregate `all_data_ready` is emitted
only if `is_running` still holds after the loop. -/
def fetch_all_data (slots : List Nat) (t0 : Nat) (steps : List FetchStep) :
    FetchRunState :=
  if min 8 slots.length = 0 then
    { initFetchState t0 with
        isRunning := false, errorEmits := 1, finishedEmits := 1 }
  else
    let s := steps.foldl (fetchLoopStep slots.length) (initFetchState t0)
    let s := if s.isRunning = true then { s with dataReadyEmitted := true } else s
    { s with isRunning := false, finishedEmits := s.finishedEmits + 1 }

/-- The progress emissions produced by an uninterrupted run: completed
counter starting at `c`, last update time at `l`, task completion times
`ts`. -/
def loopEmits (total : Nat) : Nat → Nat → List Nat → List ProgEmit
  | _, _, [] => []
  | c, l, t :: ts =>
    if updateInterval ≤ t - l ∨ c + 1 = total then
      ⟨c + 1, total, t⟩ :: loopEmits total (c + 1) t ts
    else loopEmits total (c + 1) l ts

/-- The value of `last_update_time` after an uninterrupted run. -/
def lastUpdateAfter (total : Nat) : Nat → Nat → List Nat → Nat
  | _, l, [] => l
  | c, l, t :: ts =>
    if updateInterval ≤ t - l ∨ c + 1 = total then
      lastUpdateAfter total (c + 1) t ts
    else lastUpdateAfter total (c + 1) l ts

/-- The rate-limit contract on a progress-emission trace: each emission is
either the final one (`completed = total`) or at least `updateInterval`
after the previous emission (initially the run start `prev`). -/
def rateLimitedB (total : Nat) : Nat → List ProgEmit → Bool
  | _, [] => true
  | prev, e :: rest =>
    (decide (e.completed = total) || decide (prev + updateInterval ≤ e.time))
      && rateLimitedB total e.time rest

/-- Program counter of one thread running `authenticate` concurrently: the
already-authenticated guard (client.py lines 31-32) and the login body
(lines 34-119) are the two shared-state accesses. -/
inductive AuthPc where
  | start
  | body
  | done
  deriving DecidableEq

/-- One caller of `authenticate`: its program counter and, when finished,
its return value. -/
structure AuthThread where
  pc : AuthPc
  ret : Option Bool
  deriving DecidableEq

/-- Two concurrent callers sharing one `DeviceApiClient`. -/
structure AuthRaceState where
  client : ClientState
  a : AuthThread
  b : AuthThread

/-- One atomic step of a caller: the guard reads `self.authenticated`; the
body runs `authenticate_body` on the shared client state.  There is no lock
in client.py, so steps of the two callers may interleave freely. -/
def auth_thread_step (env : Env) (t : AuthThread) (st : ClientState) :
    AuthThread × ClientState :=
  match t.pc with
  | .start =>
    if st.authenticated then ({ pc := .done, ret := some true }, st)
    else ({ pc := .body, ret := none }, st)
  | .body =>
    let r := authenticate_body env st
    ({ pc := .done, ret := some r.1 }, r.2)
  | .done => (t, st)

/-- Run one scheduled step (`true` steps caller A, `false` caller B). -/
def auth_race_step (env : Env) (s : AuthRaceState) (stepA : Bool) :
    AuthRaceState :=
  if stepA then
    let r := auth_thread_step env s.a s.client
    { s with a := r.1, client := r.2 }
  else
    let r := auth_thread_step env s.b s.client
    { s with b := r.1, client := r.2 }

/-- Run a whole interleaving schedule. -/
def run_auth_race (env : Env) (init : AuthRaceState) (sched : List Bool) :
    AuthRaceState :=
  sched.foldl (auth_race_step env) init

/-- device_data.py lines 44/47: the default product record. -/
def productDefault : Json :=
  Json.obj [("prodname", Json.str "Unknown"), ("serialfull", Json.str "Unknown"),
            ("swver", Json.str "Unknown"), ("swbuildtime", Json.str "Unknown")]

/-- device_data.py lines 73/76: the default time record. -/
def timeDefault : Json :=
  Json.obj [("localtimetxt", Json.str "Unknown"), ("uptimetxt", Json.str "Unknown")]

/-- device_data.py lines 102/105: the default memory record. -/
def memoryDefault : Json :=
  Json.obj [("threshold", Json.str "0"), ("pool_coll", Json.obj [])]

/-- device_data.py lines 153/156: the default alarm record (string zeros). -/
def alarmDefault : Json :=
  Json.obj [("n_total", Json.str "0"), ("n_critical", Json.str "0"),
            ("n_major", Json.str "0"), ("n_minor", Json.str "0"),
            ("n_warning", Json.str "0")]

/-- device_data.py lines 124-132: build the alarm record from `*_count`
fields of the status (integer zeros as defaults). -/
def alarmFromStatus (status : Json) : Json :=
  Json.obj [("n_total", (Json.find status "active_count").getD (Json.num 0)),
            ("n_critical", (Json.find status "critical_count").getD (Json.num 0)),
            ("n_major", (Json.find status "major_count").getD (Json.num 0)),
            ("n_minor", (Json.find status "minor_count").getD (Json.num 0)),
            ("n_warning", (Json.find status "warning_count").getD (Json.num 0))]

/-- device_data.py lines 18-47: `_extract_product_info`, the four probed
shapes in source order (doubly nested `data.dev.data.dev`, flat `data.dev`,
`dev.data.dev`, sectioned `device_info`), then the default. -/
def extract_product_info (raw : Json) : Json :=
  if raw.hasKey "data" && (raw.findD "data").hasKey "dev"
      && ((raw.findD "data").findD "dev").hasKey "data"
      && (((raw.findD "data").findD "dev").findD "data").hasKey "dev"
      && ((((raw.findD "data").findD "dev").findD "data").findD "dev").hasKey "product_info" then
    ((((raw.findD "data").findD "dev").findD "data").findD "dev").findD "product_info"
  else if raw.hasKey "data" && (raw.findD "data").hasKey "dev"
      && ((raw.findD "data").findD "dev").hasKey "product_info" then
    ((raw.findD "data").findD "dev").findD "product_info"
  else if raw.hasKey "dev" && (raw.findD "dev").hasKey "data"
      && ((raw.findD "dev").findD "data").hasKey "dev"
      && (((raw.findD "dev").findD "data").findD "dev").hasKey "product_info" then
    (((raw.findD "dev").findD "data").findD "dev").findD "product_info"
  else if raw.hasKey "device_info" && (raw.findD "device_info").hasKey "product_info" then
    (raw.findD "device_info").findD "product_info"
  else productDefault

/-- device_data.py lines 49-76: `_extract_time_info`. -/
def extract_time_info (raw : Json) : Json :=
  if raw.hasKey "data" && (raw.findD "data").hasKey "dev"
      && ((raw.findD "data").findD "dev").hasKey "data"
      && (((raw.findD "data").findD "dev").findD "data").hasKey "dev"
      && ((((raw.findD "data").findD "dev").findD "data").findD "dev").hasKey "time" then
    ((((raw.findD "data").findD "dev").findD "data").findD "dev").findD "time"
  else if raw.hasKey "data" && (raw.findD "data").hasKey "dev"
      && ((raw.findD "data").findD "dev").hasKey "time" then
    ((raw.findD "data").findD "dev").findD "time"
  else if raw.hasKey "dev" && (raw.findD "dev").hasKey "data"
      && ((raw.findD "dev").findD "data").hasKey "dev"
      && (((raw.findD "dev").findD "data").findD "dev").hasKey "time" then
    (((raw.findD "dev").findD "data").findD "dev").findD "time"
  else if raw.hasKey "device_info" && (raw.findD "device_info").hasKey "time" then
    (raw.findD "device_info").findD "time"
  else timeDefault

/-- device_data.py lines 78-105: `_extract_memory_info`. -/
def extract_memory_info (raw : Json) : Json :=
  if raw.hasKey "data" && (raw.findD "data").hasKey "dev"
      && ((raw.findD "data").findD "dev").hasKey "data"
      && (((raw.findD "data").findD "dev").findD "data").hasKey "dev"
      && ((((raw.findD "data").findD "dev").findD "data").findD "dev").hasKey "mem_usage" then
    ((((raw.findD "data").findD "dev").findD "data").findD "dev").findD "mem_usage"
  else if raw.hasKey "data" && (raw.findD "data").hasKey "dev"
      && ((raw.findD "data").findD "dev").hasKey "mem_usage" then
    ((raw.findD "data").findD "dev").findD "mem_usage"
  else if raw.hasKey "dev" && (raw.findD "dev").hasKey "data"
      && ((raw.findD "dev").findD "data").hasKey "dev"
      && (((raw.findD "dev").findD "data").findD "dev").hasKey "mem_usage" then
    (((raw.findD "dev").findD "data").findD "dev").findD "mem_usage"
  else if raw.hasKey "device_info" && (raw.findD "device_info").hasKey "mem_usage" then
    (raw.findD "device_info").findD "mem_usage"
  else memoryDefault

/-- device_data.py lines 107-156: `_extract_alarm_info`.  Branch 1 (doubly
nested) returns `severities` when present, otherwise builds counts from the
status; branch 2 (flat) returns only when `severities` is present, falling
THROUGH otherwise (the Python `if` has no `else`); branch 3 (top-level
`alarms` section) returns `severities` or the raw status; then the string
default. -/
def extract_alarm_info (raw : Json) : Json :=
  if raw.hasKey "data" && (raw.findD "data").hasKey "dev"
      && ((raw.findD "data").findD "dev").hasKey "data"
      && (((raw.findD "data").findD "dev").findD "data").hasKey "dev"
      && ((((raw.findD "data").findD "dev").findD "data").findD "dev").hasKey "alarms"
      && (((((raw.findD "data").findD "dev").findD "data").findD "dev").findD "alarms").hasKey "status" then
    if ((((((raw.findD "data").findD "dev").findD "data").findD "dev").findD "alarms").findD "status").hasKey "severities" then
      (((((((raw.findD "data").findD "dev").findD "data").findD "dev").findD "alarms").findD "status")).findD "severities"
    else
      alarmFromStatus ((((((raw.findD "data").findD "dev").findD "data").findD "dev").findD "alarms").findD "status")
  else if raw.hasKey "data" && (raw.findD "data").hasKey "dev"
      && ((raw.findD "data").findD "dev").hasKey "alarms"
      && (((raw.findD "data").findD "dev").findD "alarms").hasKey "status"
      && ((((raw.findD "data").findD "dev").findD "alarms").findD "status").hasKey "severities" then
    ((((raw.findD "data").findD "dev").findD "alarms").findD "status").findD "severities"
  else if raw.hasKey "alarms" && (raw.findD "alarms").hasKey "status" then
    if ((raw.findD "alarms").findD "status").hasKey "severities" then
      ((raw.findD "alarms").findD "status").findD "severities"
    else (raw.findD "alarms").findD "status"
  else alarmDefault

/-- The canonical per-slot projection built by `DeviceData.__init__`
(device_data.py lines 6-16). -/
structure CanonicalDeviceView where
  product_info : Json
  time_info : Json
  memory_info : Json
  alarm_info : Json

/-- device_data.py lines 6-16: run the four extractors on one raw payload. -/
def device_data_view (raw : Json) : CanonicalDeviceView :=
  { product_info := extract_product_info raw,
    time_info := extract_time_info raw,
    memory_info := extract_memory_info raw,
    alarm_info := extract_alarm_info raw }

/-- The flat shape variant: all sections under `data.dev` (the "original
structure" branches of device_data.py). -/
def flatShape (P T M S : Json) : Json :=
  Json.obj [("data", Json.obj [("dev", Json.obj
    [("product_info", P), ("time", T), ("mem_usage", M),
     ("alarms", Json.obj [("status", S)])])])]

/-- The doubly nested shape variant: sections under `data.dev.data.dev`
(the "actual nested structure" branches). -/
def doublyNestedShape (P T M S : Json) : Json :=
  Json.obj [("data", Json.obj [("dev", Json.obj [("data", Json.obj
    [("dev", Json.obj [("product_info", P), ("time", T), ("mem_usage", M),
     ("alarms", Json.obj [("status", S)])])])])])]

/-- The sectioned shape variant: product/time/memory under `device_info`,
the alarm status under a top-level `alarms` section (the "new sectioned
structure" branches). -/
def deviceInfoShape (P T M S : Json) : Json :=
  Json.obj [("device_info", Json.obj
    [("product_info", P), ("time", T), ("mem_usage", M)]),
    ("alarms", Json.obj [("status", S)])]

/-! ### Lemmas about the fetch loop -/

lemma fetchLoopStep_isRunning_false (total : Nat) (s : FetchRunState)
    (e : FetchStep) (h : s.isRunning = false) :
    (fetchLoopStep total s e).isRunning = false := by
  cases e with
  | stop => simp [fetchLoopStep]
  | complete t =>
    simp only [fetchLoopStep]
    split
    · exact h
    · simp [h]

lemma foldl_isRunning_false (total : Nat) (steps : List FetchStep) :
    ∀ s : FetchRunState, s.isRunning = false →
      (steps.foldl (fetchLoopStep total) s).isRunning = false := by
  induction steps with
  | nil => intro s h; simpa using h
  | cons e rest ih =>
    intro s h
    simpa using ih (fetchLoopStep total s e) (fetchLoopStep_isRunning_false total s e h)

lemma fetchLoopStep_dataReady (total : Nat) (s : FetchRunState) (e : FetchStep) :
    (fetchLoopStep total s e).dataReadyEmitted = s.dataReadyEmitted := by
  cases e with
  | stop => simp [fetchLoopStep]
  | complete t =>
    simp only [fetchLoopStep]
    split
    · rfl
    · split
      · rfl
      · split <;> rfl

lemma foldl_dataReady (total : Nat) (steps : List FetchStep) :
    ∀ s : FetchRunState,
      (steps.foldl (fetchLoopStep total) s).dataReadyEmitted = s.dataReadyEmitted := by
  induction steps with
  | nil => intro s; rfl
  | cons e rest ih =>
    intro s
    simpa [fetchLoopStep_dataReady] using ih (fetchLoopStep total s e)

lemma foldl_stop_isRunning_false (total : Nat) (steps : List FetchStep)
    (h : FetchStep.stop ∈ steps) :
    ∀ s : FetchRunState, (steps.foldl (fetchLoopStep total) s).isRunning = false := by
  induction steps with
  | nil => cases h
  | cons e rest ih =>
    intro s
    rcases List.mem_cons.mp h with he | hrest
    · subst he
      simp only [List.foldl_cons]
      exact foldl_isRunning_false total rest _ (by simp [fetchLoopStep])
    · simpa using ih hrest (fetchLoopStep total s e)

/-- C1: if `stop()` clears the `is_running` flag at any point of the run's
event trace, `fetch_all_data` never emits the final `all_data_ready`
aggregate for that run. -/
theorem cancel_mid_run_never_emits_aggregate (slots : List Nat) (t0 : Nat)
    (steps : List FetchStep) (h : FetchStep.stop ∈ steps) :
    (fetch_all_data slots t0 steps).dataReadyEmitted = false := by
  unfold fetch_all_data
  split
  · rfl
  · have hrun := foldl_stop_isRunning_false slots.length steps h (initFetchState t0)
    have hdr := foldl_dataReady slots.length steps (initFetchState t0)
    have hinit : (initFetchState t0).dataReadyEmitted = false := rfl
    simp [hrun, hdr, hinit]

/-- Witness for C1 at a concrete trace containing a `stop` event. -/
theorem cancel_mid_run_never_emits_aggregate_witness :
    FetchStep.stop ∈ [FetchStep.complete 0, FetchStep.stop, FetchStep.complete 300] ∧
    (fetch_all_data [4, 7] 0
      [FetchStep.complete 0, FetchStep.stop, FetchStep.complete 300]).dataReadyEmitted
      = false :=
  ⟨by decide,
   cancel_mid_run_never_emits_aggregate [4, 7] 0
     [FetchStep.complete 0, FetchStep.stop, FetchStep.complete 300] (by decide)⟩

lemma fetchLoopStep_complete_run (total c l : Nat) (E : List ProgEmit)
    (de : Bool) (er fe t : Nat) :
    fetchLoopStep total
      { isRunning := true, completed := c, lastUpdate := l, progressEmits := E,
        dataReadyEmitted := de, errorEmits := er, finishedEmits := fe,
        broken := false }
      (FetchStep.complete t)
    = if updateInterval ≤ t - l ∨ c + 1 = total then
        { isRunning := true, completed := c + 1, lastUpdate := t,
          progressEmits := E ++ [⟨c + 1, total, t⟩], dataReadyEmitted := de,
          errorEmits := er, finishedEmits := fe, broken := false }
      else
        { isRunning := true, completed := c + 1, lastUpdate := l,
          progressEmits := E, dataReadyEmitted := de, errorEmits := er,
          finishedEmits := fe, broken := false } := rfl

lemma foldl_completes_char (total : Nat) (ts : List Nat) :
    ∀ (c l : Nat) (E : List ProgEmit) (de : Bool) (er fe : Nat),
      (ts.map FetchStep.complete).foldl (fetchLoopStep total)
        { isRunning := true, completed := c, lastUpdate := l, progressEmits := E,
          dataReadyEmitted := de, errorEmits := er, finishedEmits := fe,
          broken := false }
      = { isRunning := true, completed := c + ts.length,
          lastUpdate := lastUpdateAfter total c l ts,
          progressEmits := E ++ loopEmits total c l ts, dataReadyEmitted := de,
          errorEmits := er, finishedEmits := fe, broken := false } := by
  induction ts with
  | nil => intro c l E de er fe; simp [lastUpdateAfter, loopEmits]
  | cons t ts ih =>
    intro c l E de er fe
    simp only [List.map_cons, List.foldl_cons, fetchLoopStep_complete_run]
    by_cases hc : updateInterval ≤ t - l ∨ c + 1 = total
    · rw [if_pos hc, ih]
      simp only [loopEmits, lastUpdateAfter, if_pos hc, List.length_cons,
        List.append_assoc, List.singleton_append, FetchRunState.mk.injEq,
        true_and, and_true]
      omega
    · rw [if_neg hc, ih]
      simp only [loopEmits, lastUpdateAfter, if_neg hc, List.length_cons,
        FetchRunState.mk.injEq, true_and, and_true]
      omega

lemma runFetch_completes_char (total t0 : Nat) (ts : List Nat) :
    (ts.map FetchStep.complete).foldl (fetchLoopStep total) (initFetchState t0)
    = { isRunning := true, completed := ts.length,
        lastUpdate := lastUpdateAfter total 0 t0 ts,
        progressEmits := loopEmits total 0 t0 ts, dataReadyEmitted := false,
        errorEmits := 0, finishedEmits := 0, broken := false } := by
  have h := foldl_completes_char total ts 0 t0 [] false 0 0
  simpa [initFetchState] using h

lemma loopEmits_rateLimited (total : Nat) (ts : List Nat) :
    ∀ c l, rateLimitedB total l (loopEmits total c l ts) = true := by
  induction ts with
  | nil => intro c l; rfl
  | cons t ts ih =>
    intro c l
    simp only [loopEmits]
    by_cases hc : updateInterval ≤ t - l ∨ c + 1 = total
    · rw [if_pos hc]
      simp only [rateLimitedB, Bool.and_eq_true, Bool.or_eq_true,
        decide_eq_true_eq]
      refine ⟨?_, ih (c + 1) t⟩
      have hu : updateInterval = 200 := rfl
      rcases hc with hle | heq
      · right; omega
      · left; exact heq
    · rw [if_neg hc]
      exact ih (c + 1) l

lemma loopEmits_final_once (total : Nat) (ts : List Nat) :
    ∀ c l, c + ts.length = total → ts ≠ [] →
      ((loopEmits total c l ts).filter (fun e => e.completed == total)).length = 1 := by
  induction ts with
  | nil => intro c l _ hne; cases hne rfl
  | cons t ts ih =>
    intro c l hlen _
    simp only [loopEmits]
    by_cases hts : ts = []
    · subst hts
      have hct : c + 1 = total := by simpa using hlen
      rw [if_pos (Or.inr hct)]
      simp [loopEmits, hct]
    · have hlt : c + 1 ≠ total := by
        have : 0 < ts.length := List.length_pos.mpr hts
        simp only [List.length_cons] at hlen
        omega
      have hlen' : c + 1 + ts.length = total := by
        simp only [List.length_cons] at hlen
        omega
      by_cases hc : updateInterval ≤ t - l ∨ c + 1 = total
      · rw [if_pos hc]
        have hne : ((⟨c + 1, total, t⟩ : ProgEmit).completed == total) = false := by
          simpa using hlt
        simp only [List.filter_cons, hne, Bool.false_eq_true, if_false]
        exact ih (c + 1) t hlen' hts
      · rw [if_neg hc]
        exact ih (c + 1) l hlen' hts

/-- C2: for a run that processes every task to completion, every progress
notification is either the final one (`completed = total`) or separated from
the previous notification by at least the 200ms rate-limit interval, and the
notification with `completed = total` is emitted exactly once. -/
theorem progress_rate_limited_final_once (slots : List Nat) (t0 : Nat)
    (ts : List Nat) (h1 : ts.length = slots.length) (h2 : 0 < slots.length) :
    rateLimitedB slots.length t0
      (fetch_all_data slots t0 (ts.map FetchStep.complete)).progressEmits = true ∧
    ((fetch_all_data slots t0 (ts.map FetchStep.complete)).progressEmits.filter
      (fun e => e.completed == slots.length)).length = 1 := by
  have hmin : ¬ min 8 slots.length = 0 := by omega
  unfold fetch_all_data
  rw [if_neg hmin, runFetch_completes_char]
  refine ⟨loopEmits_rateLimited slots.length ts 0 t0, ?_⟩
  exact loopEmits_final_once slots.length ts 0 t0 (by omega)
    (by intro hnil; subst hnil; simp at h1; omega)

/-- Witness for C2: three slots completing at 50ms, 100ms and 130ms — only
the final notification fires (inside the rate-limit window), exactly once. -/
theorem progress_rate_limited_final_once_witness :
    ([50, 100, 130] : List Nat).length = ([4, 7, 9] : List Nat).length ∧
    0 < ([4, 7, 9] : List Nat).length ∧
    (rateLimitedB 3 0
      (fetch_all_data [4, 7, 9] 0 ([50, 100, 130].map FetchStep.complete)).progressEmits = true ∧
    ((fetch_all_data [4, 7, 9] 0 ([50, 100, 130].map FetchStep.complete)).progressEmits.filter
      (fun e => e.completed == 3)).length = 1) :=
  ⟨by decide, by decide,
   progress_rate_limited_final_once [4, 7, 9] 0 [50, 100, 130] (by decide) (by decide)⟩

/-- C10: started on an empty slot list, the run emits exactly one
`error_occurred` (the `ThreadPoolExecutor(max_workers=min(8,0))`
`ValueError`) and one `finished`, and never emits `progress_updated` or
`all_data_ready`. -/
theorem empty_slots_single_error (t0 : Nat) (steps : List FetchStep) :
    (fetch_all_data [] t0 steps).errorEmits = 1 ∧
    (fetch_all_data [] t0 steps).finishedEmits = 1 ∧
    (fetch_all_data [] t0 steps).progressEmits = [] ∧
    (fetch_all_data [] t0 steps).dataReadyEmitted = false :=
  ⟨rfl, rfl, rfl, rfl⟩

/-- C9: `SlotDetectionWorker.run` with `use_direct_api = True` (the
constructor default) never emits `slotsDetected`, and — whenever the worker
is not stopped mid-run — emits exactly the error signal produced by the
`AttributeError` on the missing `detect_slots_direct` attribute. -/
theorem detection_worker_direct_api_always_errors (env : Env)
    (st : ClientState) (r1 r2 : Bool) :
    (∀ s, DetectEmit.slotsDetected s ∉ slot_detection_worker_run env true r1 r2 st) ∧
    (r1 = true → r2 = true →
      slot_detection_worker_run env true r1 r2 st = [DetectEmit.error attributeErrorMsg]) := by
  constructor
  · intro s
    cases r1 <;> cases r2 <;> simp [slot_detection_worker_run, deviceApiClientAttrs]
  · intro h1 h2
    subst h1; subst h2
    simp [slot_detection_worker_run, deviceApiClientAttrs]

/-- A trivial environment where every external interaction fails; used only
to instantiate witnesses. -/
def envNone : Env :=
  { get := fun _ _ _ => none, post := fun _ _ _ => none,
    parse := fun _ => none, findForm := fun _ => none }

/-- A freshly constructed client (client.py lines 10-27). -/
def stInit (ip user pass : String) : ClientState :=
  { baseIp := ip, username := user, password := pass, authenticated := false,
    reqCount := 0, authAttempts := 0, loginPosts := 0 }

/-- Witness for C9 at a concrete never-stopped run. -/
theorem detection_worker_direct_api_always_errors_witness :
    (∀ s, DetectEmit.slotsDetected s ∉
      slot_detection_worker_run envNone true true true (stInit "1.2.3.4" "u" "p")) ∧
    slot_detection_worker_run envNone true true true (stInit "1.2.3.4" "u" "p")
      = [DetectEmit.error attributeErrorMsg] := by
  obtain ⟨ha, hb⟩ := detection_worker_direct_api_always_errors envNone
    (stInit "1.2.3.4" "u" "p") true true
  exact ⟨ha, hb rfl rfl⟩

/-- The environment for the authentication race: the protected URL serves a
login page containing a form with no typed inputs, and the login POST
succeeds with a body free of failure phrases. -/
def envAuthRace : Env :=
  { get := fun _ url _ =>
      if url == "http://1.2.3.4/slot/1/api/data.html" then
        some { status := 200, url := "http://1.2.3.4/slot/1/api/data.html",
               text := "<html>login form</html>" }
      else none,
    post := fun _ _ _ =>
      some { status := 200, url := "http://1.2.3.4/api/login", text := "welcome" },
    parse := fun _ => none,
    findForm := fun _ => some { action := some "/api/login", inputs := [] } }

/-- Counterexample for C6: under the interleaving guard-A, guard-B, body-A,
body-B both callers observe `authenticated = False` and both perform the
login POST — the claimed mutual exclusion of the read-check-then-mutate
sequence fails (client.py has no lock), so the login does not run exactly
once. -/
theorem authenticate_race_both_run_login :
    ¬ ((run_auth_race envAuthRace
        { client := stInit "1.2.3.4" "u" "p",
          a := { pc := AuthPc.start, ret := none },
          b := { pc := AuthPc.start, ret := none } }
        [true, false, true, false]).client.loginPosts ≤ 1) := by
  decide

lemma authenticate_body_true_sets_flag (env : Env) (st : ClientState) :
    ∀ b st2, authenticate_body env st = (b, st2) → b = true →
      st2.authenticated = true := by
  intro b st2 heq hb
  subst hb
  unfold authenticate_body at heq
  dsimp only at heq
  repeat' split at heq
  all_goals simp_all
  all_goals (subst heq; rfl)

/-- C6 (amended): sequential idempotence of `authenticate` — a successful
call leaves the session marked authenticated, and any further call is a
no-op returning success without touching the state (so the login runs at
most once across sequential calls).  The concurrent exactly-once property
of the claim fails (see the race counterexample). -/
theorem authenticate_sequentially_idempotent (env : Env) (st : ClientState)
    (h : (authenticate env st).1 = true) :
    (authenticate env st).2.authenticated = true ∧
    authenticate env (authenticate env st).2 = (true, (authenticate env st).2) := by
  by_cases hauth : st.authenticated = true
  · refine ⟨by simp [authenticate, hauth], ?_⟩
    simp [authenticate, hauth]
  · have hbody : authenticate env st = authenticate_body env st := by
      simp [authenticate, hauth]
    rw [hbody] at h ⊢
    have hset := authenticate_body_true_sets_flag env st
      (authenticate_body env st).1 (authenticate_body env st).2 rfl h
    refine ⟨hset, ?_⟩
    simp [authenticate, hset]

/-- A client whose session flag is already set. -/
def stAuthed : ClientState :=
  { stInit "1.2.3.4" "u" "p" with authenticated := true }

/-- Witness for the amended C6 theorem at a concrete successful call. -/
theorem authenticate_sequentially_idempotent_witness :
    (authenticate envNone stAuthed).1 = true ∧
    ((authenticate envNone stAuthed).2.authenticated = true ∧
     authenticate envNone (authenticate envNone stAuthed).2
       = (true, (authenticate envNone stAuthed).2)) :=
  ⟨rfl, authenticate_sequentially_idempotent envNone stAuthed rfl⟩

/-- A login form with one named text input and no password-typed input. -/
def formTextOnly : Form :=
  { action := some "/login",
    inputs := [{ type := some "text", name := some "user", value := none }] }

/-- Counterexample for C7: on a form with a text input but no password
input, the code REPLACES the prefilled field dict when it finds the text
input, so the `pw` fallback for the missing password input is dropped and no
password is posted at all — unlike the claimed per-field fallback. -/
theorem form_fields_drop_password_fallback :
    build_form_data "alice" "secret" formTextOnly = [("user", "alice")] ∧
    build_form_data_spec "alice" "secret" formTextOnly
      = [("user", "alice"), ("pw", "secret")] ∧
    ([("user", "alice")] : List (String × String))
      ≠ [("user", "alice"), ("pw", "secret")] := by
  refine ⟨rfl, rfl, by decide⟩

/-- C7 (amended): when the form has a named non-empty text input and no
named password input, the posted fields are only the text input's name bound
to the username plus the hidden fields — the `pw` fallback (and with it the
password) is discarded; the literal `us`/`pw` pair survives only when no
named text input exists. -/
theorem form_fields_text_without_password (u p n : String) (form : Form)
    (inp : FormInput)
    (h1 : form.inputs.find? (fun i => i.name.isSome && i.type == some "text")
      = some inp)
    (h2 : inp.name = some n) (h3 : ¬ n = "")
    (h4 : form.inputs.find? (fun i => i.name.isSome && i.type == some "password")
      = none) :
    build_form_data u p form = apply_hidden_fields form [(n, u)] := by
  unfold build_form_data
  rw [h1, h4]
  dsimp only
  rw [h2]
  simp [h3]

/-- Witness for the amended C7 theorem on the concrete form above. -/
theorem form_fields_text_without_password_witness :
    (formTextOnly.inputs.find? (fun i => i.name.isSome && i.type == some "text")
      = some { type := some "text", name := some "user", value := none }) ∧
    (({ type := some "text", name := some "user", value := none } : FormInput).name
      = some "user") ∧
    ¬ ("user" : String) = "" ∧
    (formTextOnly.inputs.find? (fun i => i.name.isSome && i.type == some "password")
      = none) ∧
    build_form_data "alice2" "secret2" formTextOnly
      = apply_hidden_fields formTextOnly [("user", "alice2")] :=
  ⟨by decide, by decide, by decide, by decide,
   form_fields_text_without_password "alice2" "secret2" "user" formTextOnly
     { type := some "text", name := some "user", value := none }
     (by decide) (by decide) (by decide) (by decide)⟩

/-- Device for the C4 counterexample: the aggregate slot-list request raises
(connection failure) while the per-slot probe endpoints for slots 1, 3 and 5
answer 200 and all other probes answer 404. -/
def envC4 : Env :=
  { get := fun _ url _ =>
      if url == aggUrl stAuthed then none
      else if url == probeUrl stAuthed 1 || url == probeUrl stAuthed 3
          || url == probeUrl stAuthed 5 then
        some { status := 200, url := url, text := "ok" }
      else some { status := 404, url := url, text := "nf" },
    post := fun _ _ _ => none, parse := fun _ => none,
    findForm := fun _ => none }

/-- Counterexample for C4: with the aggregate endpoint unreachable but
working probes for slots 1, 3 and 5, `detect_slots` returns `[1]` — it
never probes — while the claimed probing fallback would return `[1, 3, 5]`. -/
theorem detect_slots_never_probes :
    (detect_slots envC4 stAuthed).1 = [1] ∧
    (discover_slots_spec envC4 stAuthed 10).1 = [1, 3, 5] ∧
    ([1] : List Nat) ≠ [1, 3, 5] := by
  refine ⟨by decide, by decide, by decide⟩

/-- C4 (amended): whenever the aggregate request yields a non-200, non-login
response, `detect_slots` returns `[1]` directly, issuing no per-slot probe. -/
theorem detect_slots_aggregate_failure_defaults_to_one (env : Env)
    (st : ClientState) (r : Response) (hauth : st.authenticated = true)
    (hget : env.get st.reqCount (aggUrl st) 10 = some r)
    (hnr : loginRedirect r = false) (hstatus : ¬ r.status = 200) :
    (detect_slots env st).1 = [1] := by
  unfold detect_slots
  rw [show authenticate env st = (true, st) from by simp [authenticate, hauth]]
  dsimp only
  rw [hget]
  simp [hnr, detect_slots_finish, hstatus]

/-- Device for the C4 witness: the aggregate endpoint answers 500. -/
def envC4b : Env :=
  { get := fun _ url _ =>
      if url == aggUrl stAuthed then
        some { status := 500, url := aggUrl stAuthed, text := "err" }
      else none,
    post := fun _ _ _ => none, parse := fun _ => none,
    findForm := fun _ => none }

/-- The 500 response of `envC4b`. -/
def rC4 : Response := { status := 500, url := aggUrl stAuthed, text := "err" }

/-- Witness for the amended C4 theorem. -/
theorem detect_slots_aggregate_failure_defaults_to_one_witness :
    stAuthed.authenticated = true ∧
    envC4b.get stAuthed.reqCount (aggUrl stAuthed) 10 = some rC4 ∧
    loginRedirect rC4 = false ∧
    ¬ rC4.status = 200 ∧
    (detect_slots envC4b stAuthed).1 = [1] :=
  ⟨by decide, by decide, by decide, by decide,
   detect_slots_aggregate_failure_defaults_to_one envC4b stAuthed rC4
     (by decide) (by decide) (by decide) (by decide)⟩

/-- Device for the C5 counterexample: the `dev` section answers with a login
page, the subsequent re-authentication fails (the login URL answers 500),
while `store` and `alarms` answer valid JSON and the optional sections 404. -/
def envC5 : Env :=
  { get := fun _ url _ =>
      if url == sectionUrl stAuthed 1 "dev" then
        some { status := 200, url := url, text := "please login now" }
      else if url == loginUrl stAuthed then
        some { status := 500, url := url, text := "err" }
      else if url == sectionUrl stAuthed 1 "store" then
        some { status := 200, url := url, text := "storejson" }
      else if url == sectionUrl stAuthed 1 "alarms" then
        some { status := 200, url := url, text := "alarmsjson" }
      else some { status := 404, url := url, text := "nf" },
    post := fun _ _ _ => none,
    parse := fun s =>
      if s == "storejson" then some (Json.obj [("s", Json.num 1)])
      else if s == "alarmsjson" then some (Json.obj [("a", Json.num 2)])
      else none,
    findForm := fun _ => none }

/-- Counterexample for C5: a login-page redirection on the `dev` section
whose re-authentication fails does NOT fail the slot fetch with an
authentication error — the section is skipped with `continue` and the call
still returns a payload holding the remaining sections. -/
theorem slot_fetch_survives_failed_reauth :
    (get_slot_data envC5 1 stAuthed).1.isSome = true ∧
    Json.hasKey (Json.findD ((get_slot_data envC5 1 stAuthed).1.getD Json.null)
      "data") "store" = true ∧
    (get_slot_data envC5 1 stAuthed).2.authAttempts = 1 ∧
    (get_slot_data envC5 1 stAuthed).2.authenticated = false := by
  refine ⟨by decide, by decide, by decide, by decide⟩

lemma fallback_get_data_isSome (env : Env) (slot : Nat) (st : ClientState) :
    (fallback_get_data env slot st).1.isSome = true := by
  unfold fallback_get_data fallback_finish
  dsimp only
  repeat' split
  all_goals rfl

lemma get_slot_data_isSome_of_auth (env : Env) (slot : Nat) (st : ClientState)
    (h : (authenticate env st).1 = true) :
    (get_slot_data env slot st).1.isSome = true := by
  unfold get_slot_data
  dsimp only
  rw [if_pos h]
  split
  · exact fallback_get_data_isSome env slot _
  · rfl

/-- C5 (amended): a section failure (parse error, error status, or failed
mid-fetch re-authentication) never aborts `get_slot_data` — the call
returns `None` exactly when the up-front authentication fails. -/
theorem get_slot_data_none_iff_auth_failure (env : Env) (slot : Nat)
    (st : ClientState) :
    (get_slot_data env slot st).1 = none ↔ (authenticate env st).1 = false := by
  constructor
  · intro hnone
    by_contra hb
    have hbt : (authenticate env st).1 = true := by
      cases hx : (authenticate env st).1
      · exact absurd hx hb
      · rfl
    have hsome := get_slot_data_isSome_of_auth env slot st hbt
    rw [hnone] at hsome
    simp at hsome
  · intro hfalse
    unfold get_slot_data
    dsimp only
    rw [if_neg (by simp [hfalse])]

/-- Device for the C3 counterexample: the first `dev` request returns a
login page, re-authentication succeeds (the protected URL then answers
without login markers), and the retried `dev` request returns valid JSON;
`alarms` answers 404. -/
def envC3 : Env :=
  { get := fun n url _ =>
      if url == sectionUrl stAuthed 1 "dev" then
        (if n == 0 then
          some { status := 200, url := url, text := "<html>login please</html>" }
        else some { status := 200, url := url, text := "devjson" })
      else if url == loginUrl stAuthed then
        some { status := 200, url := url, text := "ok" }
      else some { status := 404, url := url, text := "nf" },
    post := fun _ _ _ => none,
    parse := fun s =>
      if s == "devjson" then some (Json.obj [("x", Json.num 1)]) else none,
    findForm := fun _ => none }

/-- Counterexample for C3: on a login-page redirection, the claimed
behaviour (the full section fetch restricted to dev/alarms with the 5s
timeout) re-authenticates once and retries, yielding a payload; the actual
`get_focused_slot_data` performs zero re-authentication attempts, no retry,
and returns `None`. -/
theorem focused_fetch_no_reauth_retry :
    ((get_focused_slot_data envC3 1 stAuthed).2.authAttempts = 0 ∧
     (get_focused_slot_data envC3 1 stAuthed).1.isSome = false) ∧
    ((get_focused_slot_data_spec envC3 1 stAuthed).2.authAttempts = 1 ∧
     (get_focused_slot_data_spec envC3 1 stAuthed).1.isSome = true) ∧
    (0 : Nat) ≠ 1 := by
  refine ⟨⟨by decide, by decide⟩, ⟨by decide, by decide⟩, by decide⟩

lemma focused_section_preserves_auth (env : Env) (slot : Nat)
    (p : List (String × Json) × ClientState) (name : String) :
    (focused_section env slot p name).2.authAttempts = p.2.authAttempts ∧
    (focused_section env slot p name).2.loginPosts = p.2.loginPosts := by
  unfold focused_section
  dsimp only
  repeat' split
  all_goals exact ⟨rfl, rfl⟩

lemma focused_fold_preserves_auth (env : Env) (slot : Nat)
    (names : List String) :
    ∀ p : List (String × Json) × ClientState,
      ((names.foldl (focused_section env slot) p).2.authAttempts
          = p.2.authAttempts ∧
       (names.foldl (focused_section env slot) p).2.loginPosts
          = p.2.loginPosts) := by
  induction names with
  | nil => intro p; exact ⟨rfl, rfl⟩
  | cons name rest ih =>
    intro p
    have hstep := focused_section_preserves_auth env slot p name
    have hrest := ih (focused_section env slot p name)
    simp only [List.foldl_cons]
    exact ⟨hrest.1.trans hstep.1, hrest.2.trans hstep.2⟩

/-- C3 (amended): `get_focused_slot_data` is restricted to dev/alarms with
the 5s timeout but is NOT otherwise identical to the full section fetch —
it contains no login-redirect handling at all: on a session already marked
authenticated it never enters the `authenticate` body and never performs a
login POST, whatever the device answers. -/
theorem focused_fetch_never_reauthenticates (env : Env) (slot : Nat)
    (st : ClientState) (h : st.authenticated = true) :
    (get_focused_slot_data env slot st).2.authAttempts = st.authAttempts ∧
    (get_focused_slot_data env slot st).2.loginPosts = st.loginPosts := by
  have hsnd : (get_focused_slot_data env slot st).2
      = (focusedSections.foldl (focused_section env slot) ([], st)).2 := by
    unfold get_focused_slot_data
    rw [show authenticate env st = (true, st) from by simp [authenticate, h]]
    dsimp only
    rw [if_pos rfl]
    split <;> rfl
  rw [hsnd]
  exact focused_fold_preserves_auth env slot focusedSections ([], st)

/-- Witness for the amended C3 theorem on the concrete redirecting device. -/
theorem focused_fetch_never_reauthenticates_witness :
    stAuthed.authenticated = true ∧
    ((get_focused_slot_data envC3 1 stAuthed).2.authAttempts
        = stAuthed.authAttempts ∧
     (get_focused_slot_data envC3 1 stAuthed).2.loginPosts
        = stAuthed.loginPosts) :=
  ⟨rfl, focused_fetch_never_reauthenticates envC3 1 stAuthed rfl⟩

lemma product_flat (P T M S : Json) :
    extract_product_info (flatShape P T M S) = P := rfl

lemma product_doubly (P T M S : Json) :
    extract_product_info (doublyNestedShape P T M S) = P := rfl

lemma product_devinfo (P T M S : Json) :
    extract_product_info (deviceInfoShape P T M S) = P := rfl

lemma time_flat (P T M S : Json) :
    extract_time_info (flatShape P T M S) = T := rfl

lemma time_doubly (P T M S : Json) :
    extract_time_info (doublyNestedShape P T M S) = T := rfl

lemma time_devinfo (P T M S : Json) :
    extract_time_info (deviceInfoShape P T M S) = T := rfl

lemma memory_flat (P T M S : Json) :
    extract_memory_info (flatShape P T M S) = M := rfl

lemma memory_doubly (P T M S : Json) :
    extract_memory_info (doublyNestedShape P T M S) = M := rfl

lemma memory_devinfo (P T M S : Json) :
    extract_memory_info (deviceInfoShape P T M S) = M := rfl

lemma alarm_flat (P T M S sev : Json)
    (h : Json.find S "severities" = some sev) :
    extract_alarm_info (flatShape P T M S) = sev := by
  have hred : extract_alarm_info (flatShape P T M S)
      = if (Json.hasKey S "severities") = true
        then Json.findD S "severities" else alarmDefault := rfl
  rw [hred, if_pos (by simp [Json.hasKey, h])]
  simp [Json.findD, h]

lemma alarm_doubly (P T M S sev : Json)
    (h : Json.find S "severities" = some sev) :
    extract_alarm_info (doublyNestedShape P T M S) = sev := by
  have hred : extract_alarm_info (doublyNestedShape P T M S)
      = if (Json.hasKey S "severities") = true
        then Json.findD S "severities" else alarmFromStatus S := rfl
  rw [hred, if_pos (by simp [Json.hasKey, h])]
  simp [Json.findD, h]

lemma alarm_devinfo (P T M S sev : Json)
    (h : Json.find S "severities" = some sev) :
    extract_alarm_info (deviceInfoShape P T M S) = sev := by
  have hred : extract_alarm_info (deviceInfoShape P T M S)
      = if (Json.hasKey S "severities") = true
        then Json.findD S "severities" else S := rfl
  rw [hred, if_pos (by simp [Json.hasKey, h])]
  simp [Json.findD, h]

/-- An alarm status carrying only counter fields, no `severities` mapping. -/
def alarmStatusNoSev : Json := Json.obj [("active_count", Json.num 5)]

/-- Counterexample for C8: for equivalent underlying data whose alarm status
has no `severities` mapping, the flat shape normalizes the alarm section to
the string-zero default while the doubly nested shape builds integer counts
from the status — the canonical alarm values differ. -/
theorem normalizer_alarm_shape_divergence :
    Json.find (extract_alarm_info
      (flatShape Json.null Json.null Json.null alarmStatusNoSev)) "n_total"
      = some (Json.str "0") ∧
    Json.find (extract_alarm_info
      (doublyNestedShape Json.null Json.null Json.null alarmStatusNoSev)) "n_total"
      = some (Json.num 5) ∧
    some (Json.str "0") ≠ some (Json.num 5) := by
  refine ⟨rfl, rfl, ?_⟩
  intro hcontra
  injection hcontra with h2
  cases h2

/-- C8 (amended): across the three documented shape variants the normalizer
produces identical canonical product, time and memory values always, and
identical alarm values whenever the alarm status carries a `severities`
mapping; without `severities` the variants diverge (see the
counterexample). -/
theorem normalizer_shape_tolerance (P T M S sev : Json)
    (h : Json.find S "severities" = some sev) :
    device_data_view (flatShape P T M S)
      = device_data_view (doublyNestedShape P T M S) ∧
    device_data_view (flatShape P T M S)
      = device_data_view (deviceInfoShape P T M S) ∧
    device_data_view (flatShape P T M S)
      = { product_info := P, time_info := T, memory_info := M,
          alarm_info := sev } := by
  have ha1 := alarm_flat P T M S sev h
  have ha2 := alarm_doubly P T M S sev h
  have ha3 := alarm_devinfo P T M S sev h
  refine ⟨?_, ?_, ?_⟩ <;>
    simp [device_data_view, product_flat, product_doubly, product_devinfo,
      time_flat, time_doubly, time_devinfo, memory_flat, memory_doubly,
      memory_devinfo, ha1, ha2, ha3]

/-- A status whose `severities` mapping is present. -/
def alarmStatusWithSev : Json :=
  Json.obj [("severities", Json.obj [("n_total", Json.num 2)]),
            ("active_count", Json.num 9)]

/-- Witness for the amended C8 theorem on a concrete severities-carrying
status. -/
theorem normalizer_shape_tolerance_witness :
    Json.find alarmStatusWithSev "severities"
      = some (Json.obj [("n_total", Json.num 2)]) ∧
    device_data_view (flatShape (Json.str "p") (Json.str "t") (Json.str "m")
        alarmStatusWithSev)
      = device_data_view (doublyNestedShape (Json.str "p") (Json.str "t")
        (Json.str "m") alarmStatusWithSev) :=
  ⟨rfl,
   (normalizer_shape_tolerance (Json.str "p") (Json.str "t") (Json.str "m")
     alarmStatusWithSev (Json.obj [("n_total", Json.num 2)]) rfl).1⟩
